import Mathlib

/-!
Shallow embedding of `src/hooks/use-free-scale.ts` (the `useFreeScale` React
hook).  JavaScript numbers are modelled as rationals `ℚ`; the mutable refs and
React state cells of the hook are gathered into an explicit `HookState`
record, and each event handler becomes a pure state-transition function.
DOM queries (`getBoundingClientRect`) are modelled by a `DomEnv` record that
supplies the measured rectangles of the container and child elements (each
`Option`, since a ref may be unmounted / `null`).
-/

/-- Interface `ITransRes` from the source: the transform state
`\x7b transXY: [number, number]; scale: number; rotate: number \x7d`. -/
structure ITransRes where
  transXY : ℚ × ℚ
  scale : ℚ
  rotate : ℚ
deriving DecidableEq, Repr

/-- Type `Pick<DOMRect, "height" | "width">` from the source (the payload of a
cached rect; the `| undefined` part is modelled with `Option`). -/
structure IDomRectData where
  height : ℚ
  width : ℚ
deriving DecidableEq, Repr

/-- Type alias `IDomRect = Pick<DOMRect, "height" | "width"> | undefined`. -/
abbrev IDomRect := Option IDomRectData

/-- Interface `IRectData` from the source: the pair of cached rects handed to the
correction function. -/
structure IRectData where
  originConatinerRect : IDomRect
  originChildRect : IDomRect
deriving DecidableEq, Repr

/-- Enum `IAction` from the source. -/
inductive IAction where
  | MOVE
  | SCALE
deriving DecidableEq, Repr

/-- Type of the caller-supplied correction function `customTrans`:
`(prev, v, rect, action) => ITransRes`. -/
abbrev CustomTrans := ITransRes → ITransRes → IRectData → IAction → ITransRes

/-- The default correction function from the source:
`customTrans = (_prev, v) => v` (identity on the proposed state). -/
def defaultCustomTrans : CustomTrans := fun _prev v _rect _action => v

/-- The default scale step from the source: `const defaultScaleStep = 0.1`. -/
def defaultScaleStep : ℚ := 1 / 10

/-- Result of `getBoundingClientRect()` on a mounted element
(the fields the source reads: `left`, `top`, `width`, `height`). -/
structure BoundingRect where
  left : ℚ
  top : ℚ
  width : ℚ
  height : ℚ
deriving DecidableEq, Repr

/-- The DOM environment: what `containerRef.current` and `childRef.current`
would measure.  `none` models an unmounted ref (`null`). -/
structure DomEnv where
  container : Option BoundingRect
  child : Option BoundingRect
deriving DecidableEq, Repr

/-- A `MouseEvent` as consumed by `handleMove`: viewport coordinates. -/
structure MouseEv where
  clientX : ℚ
  clientY : ℚ
deriving DecidableEq, Repr

/-- A `WheelEvent` as consumed by `handleGesture`: viewport coordinates and
the signed vertical delta. -/
structure WheelEv where
  clientX : ℚ
  clientY : ℚ
  deltaY : ℚ
deriving DecidableEq, Repr

/-- The mutable state of one `useFreeScale` hook instance: the React state
cells `transXY`, `scale`, `rotate` and the refs `mousedownLock`, `mouseXY`,
`containerRectRef`, `childRectRef`.  (`transformConfigRef` mirrors the three
state cells and is recovered by `transformConfig` below.) -/
structure HookState where
  transXY : ℚ × ℚ
  scale : ℚ
  rotate : ℚ
  mousedownLock : Bool
  mouseXY : ℚ × ℚ
  containerRectRef : IDomRect
  childRectRef : IDomRect
deriving DecidableEq, Repr

/-- Ref `transformConfigRef.current`: the snapshot of the three transform state
cells that the handlers read. -/
def transformConfig (s : HookState) : ITransRes :=
  { transXY := s.transXY, scale := s.scale, rotate := s.rotate }

/-- Restriction of a full bounding rect to the `height`/`width` fields that
`getOriginRect` caches (the `Pick<DOMRect, "height" | "width">` typing). -/
def pickHW (r : BoundingRect) : IDomRectData :=
  { height := r.height, width := r.width }

/-- Function `getOriginRect` from the source: returns the cached container/child rects,
querying the DOM (the environment) only for a rect whose cache is still
`undefined`, and stores any freshly queried rect back into the cache.
Returns the `IRectData` together with the updated hook state. -/
def getOriginRect (env : DomEnv) (s : HookState) : IRectData × HookState :=
  let originConatinerRect :=
    s.containerRectRef.orElse (fun _ => env.container.map pickHW)
  let originChildRect :=
    s.childRectRef.orElse (fun _ => env.child.map pickHW)
  (⟨originConatinerRect, originChildRect⟩,
    { s with
        containerRectRef := originConatinerRect
        childRectRef := originChildRect })

/-- The proposed state built by `handleMove`:
spread of the current config with
`transXY: [transXY_[0] + deltaXY[0], transXY_[1] + deltaXY[1]]` where
`deltaXY = [e.clientX - mouseXY.current[0], e.clientY - mouseXY.current[1]]`. -/
def moveProposal (e : MouseEv) (mouseXY : ℚ × ℚ) (cfg : ITransRes) : ITransRes :=
  { cfg with
      transXY :=
        (cfg.transXY.1 + (e.clientX - mouseXY.1),
         cfg.transXY.2 + (e.clientY - mouseXY.2)) }

/-- Handler `handleMove` from the source.  A no-op unless `mousedownLock` is set;
otherwise it records the new pointer position in `mouseXY`, runs the
correction function on the proposed translation (with the rect snapshot from
`getOriginRect` and action `MOVE`), and commits only `transXY` from the
result (`setTransXY(customTransRes.transXY)`). -/
def handleMove (customTrans : CustomTrans) (env : DomEnv) (e : MouseEv)
    (s : HookState) : HookState :=
  if s.mousedownLock = false then s
  else
    let s1 := { s with mouseXY := (e.clientX, e.clientY) }
    let rectAndState := getOriginRect env s1
    let customTransRes :=
      customTrans (transformConfig s) (moveProposal e s.mouseXY (transformConfig s))
        rectAndState.1 IAction.MOVE
    { rectAndState.2 with transXY := customTransRes.transXY }

/-- Expression `const direc = e.deltaY > 0 ? -1 : 1` from `handleGesture`. -/
def direc (deltaY : ℚ) : ℚ := if deltaY > 0 then -1 else 1

/-- The proposed state built by `handleGesture`: with
`childCenter = [rect.left + width/2, rect.top + height/2]`,
`deltaOffset[i] = (target[i] - childCenter[i]) * direc / scale * scaleStep`,
it proposes `transXY - deltaOffset`, `scale + direc * scaleStep`, and the
unchanged `rotate`. -/
def gestureProposal (scaleStep : ℚ) (childRect : BoundingRect) (e : WheelEv)
    (cfg : ITransRes) : ITransRes :=
  let d := direc e.deltaY
  let childCenter : ℚ × ℚ :=
    (childRect.left + childRect.width / 2, childRect.top + childRect.height / 2)
  let targetPoint : ℚ × ℚ := (e.clientX, e.clientY)
  let deltaOffset : ℚ × ℚ :=
    ((targetPoint.1 - childCenter.1) * d / cfg.scale * scaleStep,
     (targetPoint.2 - childCenter.2) * d / cfg.scale * scaleStep)
  { transXY := (cfg.transXY.1 - deltaOffset.1, cfg.transXY.2 - deltaOffset.2),
    scale := cfg.scale + d * scaleStep,
    rotate := cfg.rotate }

/-- Handler `handleGesture` from the source.  Returns early (state unchanged) when
`e.deltaY === 0` or `mousedownLock.current` is set; does nothing when either
element ref is unmounted; otherwise measures the child rect, builds the
proposal, runs the correction function with action `SCALE`, and commits
`scale`, `transXY` and `rotate` from the result. -/
def handleGesture (customTrans : CustomTrans) (scaleStep : ℚ) (env : DomEnv)
    (e : WheelEv) (s : HookState) : HookState :=
  if e.deltaY = 0 then s
  else if s.mousedownLock then s
  else
    match env.container, env.child with
    | some _, some childRect =>
      let rectAndState := getOriginRect env s
      let customTransRes :=
        customTrans (transformConfig s)
          (gestureProposal scaleStep childRect e (transformConfig s))
          rectAndState.1 IAction.SCALE
      { rectAndState.2 with
          scale := customTransRes.scale
          transXY := customTransRes.transXY
          rotate := customTransRes.rotate }
    | _, _ => s

/-- Drop trailing `0` characters from a digit list (used for the fractional
part of a decimal rendering). -/
def stripTrailingZeros (l : List Char) : List Char :=
  (l.reverse.dropWhile (fun c => c = '0')).reverse

/-- Left-pad a digit list with `0` characters up to length `k`. -/
def padLeftZeros (l : List Char) (k : ℕ) : List Char :=
  List.replicate (k - l.length) '0' ++ l

/-- Model of the JavaScript number-to-string conversion performed by the
template literal, for rationals with a terminating decimal expansion (every
value relevant here): integers render without a decimal point, other values
render as a minimal decimal (`1.5`, `0.1`, `-0.5`).  Rationals without a
terminating decimal expansion (which no JavaScript double produces) fall back
to a fraction rendering. -/
def jsNumToString (q : ℚ) : String :=
  let sign := if q.num < 0 then "-" else ""
  match (List.range 40).find? (fun k => q.den ∣ 10 ^ k) with
  | some k =>
    let m := q.num.natAbs * (10 ^ k / q.den)
    let digits := padLeftZeros (toString m).toList (k + 1)
    let intPart := digits.take (digits.length - k)
    let fracPart := stripTrailingZeros (digits.drop (digits.length - k))
    sign ++ String.mk intPart ++
      (if fracPart.isEmpty then "" else "." ++ String.mk fracPart)
  | none => sign ++ toString q.num.natAbs ++ "/" ++ toString q.den

/-- The derived transform string from the source:
`translateX(..px) translateY(..px) rotate(..deg) scale(..)`. -/
def transform (cfg : ITransRes) : String :=
  "translateX(" ++ jsNumToString cfg.transXY.1 ++ "px) translateY(" ++
    jsNumToString cfg.transXY.2 ++ "px) rotate(" ++ jsNumToString cfg.rotate ++
    "deg) scale(" ++ jsNumToString cfg.scale ++ ")"

/-- The per-event pointer deltas of a sequence of move events, each taken
against the previously recorded pointer position (starting from `m0`). -/
def moveDeltas (m0 : ℚ × ℚ) : List MouseEv → List (ℚ × ℚ)
  | [] => []
  | e :: es => (e.clientX - m0.1, e.clientY - m0.2) :: moveDeltas (e.clientX, e.clientY) es

/-- Component-wise sum of a list of pairs. -/
def sumPairs : List (ℚ × ℚ) → ℚ × ℚ
  | [] => (0, 0)
  | p :: l => ((sumPairs l).1 + p.1, (sumPairs l).2 + p.2)

/-- Processing a whole list of move events in order. -/
def processMoves (customTrans : CustomTrans) (env : DomEnv)
    (es : List MouseEv) (s : HookState) : HookState :=
  es.foldl (fun st e => handleMove customTrans env e st) s

/-! ## Shared structural lemmas -/

/-- Handler `handleMove` never touches the drag lock. -/
theorem handleMove_mousedownLock (ct : CustomTrans) (env : DomEnv) (e : MouseEv)
    (s : HookState) : (handleMove ct env e s).mousedownLock = s.mousedownLock := by
  unfold handleMove getOriginRect
  split <;> rfl

/-- Handler `handleGesture` never touches the drag lock. -/
theorem handleGesture_mousedownLock (ct : CustomTrans) (step : ℚ) (env : DomEnv)
    (e : WheelEv) (s : HookState) :
    (handleGesture ct step env e s).mousedownLock = s.mousedownLock := by
  unfold handleGesture getOriginRect
  split
  · rfl
  · split
    · rfl
    · split <;> rfl

/-- Handler `handleMove` records the event position in `mouseXY` whenever the
drag lock is on. -/
theorem handleMove_mouseXY_active (ct : CustomTrans) (env : DomEnv) (e : MouseEv)
    (s : HookState) (h : s.mousedownLock = true) :
    (handleMove ct env e s).mouseXY = (e.clientX, e.clientY) := by
  unfold handleMove getOriginRect
  simp [h]

/-- With the default (identity) correction function and the lock on,
`handleMove` adds the pointer delta to the translation. -/
theorem handleMove_default_transXY (env : DomEnv) (e : MouseEv) (s : HookState)
    (h : s.mousedownLock = true) :
    (handleMove defaultCustomTrans env e s).transXY =
      (s.transXY.1 + (e.clientX - s.mouseXY.1),
       s.transXY.2 + (e.clientY - s.mouseXY.2)) := by
  unfold handleMove getOriginRect
  simp [h, defaultCustomTrans, moveProposal, transformConfig]

/-- Cached container rect is preserved (never re-queried) by `handleMove`. -/
theorem handleMove_containerRectRef_some (ct : CustomTrans) (env : DomEnv)
    (e : MouseEv) (s : HookState) (a : IDomRectData)
    (h : s.containerRectRef = some a) :
    (handleMove ct env e s).containerRectRef = some a := by
  unfold handleMove getOriginRect
  split
  · exact h
  · simp [h, Option.orElse]

/-- Cached child rect is preserved (never re-queried) by `handleMove`. -/
theorem handleMove_childRectRef_some (ct : CustomTrans) (env : DomEnv)
    (e : MouseEv) (s : HookState) (b : IDomRectData)
    (h : s.childRectRef = some b) :
    (handleMove ct env e s).childRectRef = some b := by
  unfold handleMove getOriginRect
  split
  · exact h
  · simp [h, Option.orElse]

/-- Cached container rect is preserved (never re-queried) by `handleGesture`. -/
theorem handleGesture_containerRectRef_some (ct : CustomTrans) (step : ℚ)
    (env : DomEnv) (e : WheelEv) (s : HookState) (a : IDomRectData)
    (h : s.containerRectRef = some a) :
    (handleGesture ct step env e s).containerRectRef = some a := by
  unfold handleGesture getOriginRect
  split
  · exact h
  · split
    · exact h
    · split
      · simp [h, Option.orElse]
      · exact h

/-- Cached child rect is preserved (never re-queried) by `handleGesture`. -/
theorem handleGesture_childRectRef_some (ct : CustomTrans) (step : ℚ)
    (env : DomEnv) (e : WheelEv) (s : HookState) (b : IDomRectData)
    (h : s.childRectRef = some b) :
    (handleGesture ct step env e s).childRectRef = some b := by
  unfold handleGesture getOriginRect
  split
  · exact h
  · split
    · exact h
    · split
      · simp [h, Option.orElse]
      · exact h

/-! ## Sample concrete data used by witnesses -/

/-- A sample child bounding rect (left, top, width, height). -/
def sampleRect : BoundingRect := { left := 10, top := 20, width := 50, height := 40 }

/-- A sample environment with both elements mounted. -/
def sampleEnv : DomEnv :=
  { container := some { left := 0, top := 0, width := 200, height := 100 }
    child := some sampleRect }

/-- A sample hook state (initial transform, lock off, empty rect caches). -/
def sampleState : HookState :=
  { transXY := (5, 6), scale := 1, rotate := 0, mousedownLock := false
    mouseXY := (0, 0), containerRectRef := none, childRectRef := none }

/-! ## Claims -/

/-- C5: a wheel event leaves the entire hook state unchanged whenever a drag
session is active (`mousedownLock`) or the vertical wheel delta is exactly
zero. -/
theorem claim_C5_wheel_noop (ct : CustomTrans) (step : ℚ) (env : DomEnv)
    (e : WheelEv) (s : HookState)
    (h : e.deltaY = 0 ∨ s.mousedownLock = true) :
    handleGesture ct step env e s = s := by
  rcases h with h | h <;> unfold handleGesture
  · simp [h]
  · rw [h]
    split <;> rfl

/-- Witness for C5: a zero-delta wheel event and a wheel event during a drag,
both at concrete inputs, leave the state unchanged. -/
theorem claim_C5_wheel_noop_witness :
    ((WheelEv.mk 1 2 0).deltaY = 0 ∨ sampleState.mousedownLock = true) ∧
    handleGesture defaultCustomTrans defaultScaleStep sampleEnv
      (WheelEv.mk 1 2 0) sampleState = sampleState ∧
    handleGesture defaultCustomTrans defaultScaleStep sampleEnv
      (WheelEv.mk 1 2 (-3)) { sampleState with mousedownLock := true } =
      { sampleState with mousedownLock := true } :=
  ⟨Or.inl rfl,
   claim_C5_wheel_noop _ _ _ _ _ (Or.inl rfl),
   claim_C5_wheel_noop _ _ _ _ _ (Or.inr rfl)⟩

/-- C10: during an active drag session, a pointer-move event commits only the
translation: scale and rotation are unchanged for every correction function,
even one whose MOVE result proposes different scale or rotation values. -/
theorem claim_C10_move_commits_only_translation (ct : CustomTrans) (env : DomEnv)
    (e : MouseEv) (s : HookState) (h : s.mousedownLock = true) :
    (handleMove ct env e s).scale = s.scale ∧
    (handleMove ct env e s).rotate = s.rotate := by
  unfold handleMove getOriginRect
  simp [h]

/-- Witness for C10: a correction function that proposes scale 99 and
rotation 77 on MOVE still commits the previous scale 1 and rotation 0. -/
theorem claim_C10_move_commits_only_translation_witness :
    ({ sampleState with mousedownLock := true } : HookState).mousedownLock = true ∧
    (handleMove (fun _prev v _rect _a => { v with scale := 99, rotate := 77 })
        sampleEnv (MouseEv.mk 3 4)
        { sampleState with mousedownLock := true }).scale =
      ({ sampleState with mousedownLock := true } : HookState).scale ∧
    (handleMove (fun _prev v _rect _a => { v with scale := 99, rotate := 77 })
        sampleEnv (MouseEv.mk 3 4)
        { sampleState with mousedownLock := true }).rotate =
      ({ sampleState with mousedownLock := true } : HookState).rotate :=
  ⟨rfl,
   (claim_C10_move_commits_only_translation _ _ _ _ rfl).1,
   (claim_C10_move_commits_only_translation _ _ _ _ rfl).2⟩

/-- C9: the rect snapshot is captured lazily on the first gesture that needs
it and then cached: (i) when both caches are filled, `getOriginRect` returns
exactly the cached values and leaves the state untouched, for any current DOM
measurements; (ii) on the first call with empty caches it stores the queried
height/width values; (iii) no handler ever invalidates or recomputes a filled
cache. -/
theorem claim_C9_rect_snapshot_cached :
    (∀ (env : DomEnv) (s : HookState) (a b : IDomRectData),
       s.containerRectRef = some a → s.childRectRef = some b →
       getOriginRect env s = (⟨some a, some b⟩, s)) ∧
    (∀ (env : DomEnv) (s : HookState) (cr ch : BoundingRect),
       s.containerRectRef = none → s.childRectRef = none →
       env.container = some cr → env.child = some ch →
       getOriginRect env s =
         (⟨some (pickHW cr), some (pickHW ch)⟩,
          { s with
              containerRectRef := some (pickHW cr)
              childRectRef := some (pickHW ch) })) ∧
    (∀ (ct : CustomTrans) (step : ℚ) (env : DomEnv) (em : MouseEv) (ew : WheelEv)
       (s : HookState) (a b : IDomRectData),
       s.containerRectRef = some a → s.childRectRef = some b →
       (handleMove ct env em s).containerRectRef = some a ∧
       (handleMove ct env em s).childRectRef = some b ∧
       (handleGesture ct step env ew s).containerRectRef = some a ∧
       (handleGesture ct step env ew s).childRectRef = some b) := by
  refine ⟨?_, ?_, ?_⟩
  · intro env s a b ha hb
    cases s
    simp only at ha hb
    subst ha hb
    rfl
  · intro env s cr ch ha hb hc hch
    cases s
    cases env
    simp only at ha hb hc hch
    subst ha hb hc hch
    rfl
  · intro ct step env em ew s a b ha hb
    exact ⟨handleMove_containerRectRef_some ct env em s a ha,
           handleMove_childRectRef_some ct env em s b hb,
           handleGesture_containerRectRef_some ct step env ew s a ha,
           handleGesture_childRectRef_some ct step env ew s b hb⟩

/-- Witness for C9: at concrete filled caches `getOriginRect` returns the
cached rects against a differing environment, the first call captures the
measured rects, and both handlers keep the caches intact. -/
theorem claim_C9_rect_snapshot_cached_witness :
    (getOriginRect { container := none, child := none }
       { sampleState with
           containerRectRef := some (IDomRectData.mk 7 8)
           childRectRef := some (IDomRectData.mk 1 2) } =
     (⟨some (IDomRectData.mk 7 8), some (IDomRectData.mk 1 2)⟩,
      { sampleState with
          containerRectRef := some (IDomRectData.mk 7 8)
          childRectRef := some (IDomRectData.mk 1 2) })) ∧
    (getOriginRect sampleEnv sampleState =
     (⟨some (IDomRectData.mk 100 200), some (IDomRectData.mk 40 50)⟩,
      { sampleState with
          containerRectRef := some (IDomRectData.mk 100 200)
          childRectRef := some (IDomRectData.mk 40 50) })) ∧
    (handleMove defaultCustomTrans sampleEnv (MouseEv.mk 3 4)
       { sampleState with
           containerRectRef := some (IDomRectData.mk 7 8)
           childRectRef := some (IDomRectData.mk 1 2) }).containerRectRef =
      some (IDomRectData.mk 7 8) :=
  ⟨claim_C9_rect_snapshot_cached.1 _ _ _ _ rfl rfl,
   claim_C9_rect_snapshot_cached.2.1 sampleEnv sampleState
     (BoundingRect.mk 0 0 200 100) sampleRect rfl rfl rfl rfl,
   (claim_C9_rect_snapshot_cached.2.2 defaultCustomTrans defaultScaleStep
      sampleEnv (MouseEv.mk 3 4) (WheelEv.mk 0 0 1) _ _ _ rfl rfl).1⟩

/-- The direction the spec describes, taken at its words: `+1 if scrolling
toward the user (zoom in) else -1`.  Under the DOM wheel convention, a
positive `deltaY` is produced by scrolling toward the user (scrolling down),
so the spec sentence reads as `deltaY > 0 → +1`. -/
def direcSpecTowardUser (deltaY : ℚ) : ℚ := if deltaY > 0 then 1 else -1

/-- Counterexample for C2: at `deltaY = 1` (wheel scrolled toward the user),
the code computes direction `-1`, not the `+1` the claim demands. -/
theorem claim_C2_counterexample :
    direc 1 = -1 ∧ direcSpecTowardUser 1 = 1 ∧
    direc 1 ≠ direcSpecTowardUser 1 := by
  refine ⟨?_, ?_, ?_⟩ <;> norm_num [direc, direcSpecTowardUser]

/-- C2 (amended): for every nonzero vertical wheel delta, the zoom direction
is `+1` (zoom in) exactly when `deltaY` is negative — wheel scrolled away
from the user under the DOM convention — and `-1` exactly when `deltaY` is
positive. -/
theorem claim_C2_direction (dy : ℚ) (h : dy ≠ 0) :
    (direc dy = 1 ↔ dy < 0) ∧ (direc dy = -1 ↔ 0 < dy) := by
  rcases lt_trichotomy dy 0 with hlt | hz | hgt
  · have hnp : ¬ dy > 0 := not_lt_of_gt hlt
    simp only [direc, if_neg hnp]
    constructor
    · simp [hlt]
    · constructor
      · intro h1
        exact absurd h1 (by norm_num)
      · intro h0
        exact absurd h0 hnp
  · exact absurd hz h
  · simp only [direc, if_pos hgt]
    constructor
    · constructor
      · intro h1
        exact absurd h1 (by norm_num)
      · intro hneg
        exact absurd hneg (not_lt_of_gt hgt)
    · simp [hgt]

/-- Witness for C2 (amended): at `deltaY = -2` the direction is `+1`. -/
theorem claim_C2_direction_witness :
    ((-2 : ℚ) ≠ 0) ∧
    ((direc (-2) = 1 ↔ (-2 : ℚ) < 0) ∧ (direc (-2) = -1 ↔ (0 : ℚ) < -2)) :=
  ⟨by norm_num, claim_C2_direction (-2) (by norm_num)⟩

/-- C1: a wheel event processed with no active drag and nonzero vertical
delta passes to the correction function exactly the proposal
`scale + direc * step`, `transXY - offset` with
`offset = (pointer - childCenter) * direc / scale * step` component-wise, and
the unchanged `rotate`, with action `SCALE`; the committed scale, translation
and rotation are the fields of the correction function result. -/
theorem claim_C1_wheel_proposal (ct : CustomTrans) (step : ℚ) (env : DomEnv)
    (e : WheelEv) (s : HookState) (crect chrect : BoundingRect)
    (hc : env.container = some crect) (hch : env.child = some chrect)
    (hd : e.deltaY ≠ 0) (hl : s.mousedownLock = false) :
    handleGesture ct step env e s =
      (let res := ct (transformConfig s)
          { transXY :=
              (s.transXY.1 -
                 (e.clientX - (chrect.left + chrect.width / 2)) * direc e.deltaY
                   / s.scale * step,
               s.transXY.2 -
                 (e.clientY - (chrect.top + chrect.height / 2)) * direc e.deltaY
                   / s.scale * step),
            scale := s.scale + direc e.deltaY * step,
            rotate := s.rotate }
          (getOriginRect env s).1 IAction.SCALE
       { (getOriginRect env s).2 with
           scale := res.scale
           transXY := res.transXY
           rotate := res.rotate }) := by
  simp only [handleGesture, hc, hch, hl, if_neg hd, Bool.false_eq_true, if_false]
  simp [gestureProposal, transformConfig]

/-- Witness for C1: at a concrete mounted environment and zoom-in event, the
commit equals the correction function applied to the spelled-out proposal. -/
theorem claim_C1_wheel_proposal_witness :
    sampleEnv.container = some (BoundingRect.mk 0 0 200 100) ∧
    sampleEnv.child = some sampleRect ∧
    (WheelEv.mk 1 2 (-3)).deltaY ≠ 0 ∧
    sampleState.mousedownLock = false ∧
    (handleGesture defaultCustomTrans defaultScaleStep sampleEnv
        (WheelEv.mk 1 2 (-3)) sampleState =
      (let res := defaultCustomTrans (transformConfig sampleState)
          { transXY :=
              (sampleState.transXY.1 -
                 ((WheelEv.mk 1 2 (-3)).clientX -
                    (sampleRect.left + sampleRect.width / 2)) *
                   direc (WheelEv.mk 1 2 (-3)).deltaY
                   / sampleState.scale * defaultScaleStep,
               sampleState.transXY.2 -
                 ((WheelEv.mk 1 2 (-3)).clientY -
                    (sampleRect.top + sampleRect.height / 2)) *
                   direc (WheelEv.mk 1 2 (-3)).deltaY
                   / sampleState.scale * defaultScaleStep),
            scale := sampleState.scale +
              direc (WheelEv.mk 1 2 (-3)).deltaY * defaultScaleStep,
            rotate := sampleState.rotate }
          (getOriginRect sampleEnv sampleState).1 IAction.SCALE
       { (getOriginRect sampleEnv sampleState).2 with
           scale := res.scale
           transXY := res.transXY
           rotate := res.rotate })) :=
  ⟨rfl, rfl, by show (-3 : ℚ) ≠ 0; norm_num, rfl,
   claim_C1_wheel_proposal defaultCustomTrans defaultScaleStep sampleEnv
     (WheelEv.mk 1 2 (-3)) sampleState (BoundingRect.mk 0 0 200 100) sampleRect
     rfl rfl (by show (-3 : ℚ) ≠ 0; norm_num) rfl⟩

/-- With the default correction function and all guards passed, a wheel event
commits `scale + direc * step`. -/
theorem handleGesture_default_scale (step : ℚ) (env : DomEnv) (e : WheelEv)
    (s : HookState) (crect chrect : BoundingRect)
    (hc : env.container = some crect) (hch : env.child = some chrect)
    (hd : e.deltaY ≠ 0) (hl : s.mousedownLock = false) :
    (handleGesture defaultCustomTrans step env e s).scale =
      s.scale + direc e.deltaY * step := by
  simp only [handleGesture, hc, hch, hl, if_neg hd, Bool.false_eq_true, if_false]
  simp [defaultCustomTrans, gestureProposal, transformConfig]

/-- C7: a single processed wheel event with the default correction function
changes the scale by exactly one `scaleStep`: the committed scale is
`scale + step` or `scale - step`. -/
theorem claim_C7_scale_one_step (step : ℚ) (env : DomEnv) (e : WheelEv)
    (s : HookState) (crect chrect : BoundingRect)
    (hc : env.container = some crect) (hch : env.child = some chrect)
    (hd : e.deltaY ≠ 0) (hl : s.mousedownLock = false) :
    (handleGesture defaultCustomTrans step env e s).scale = s.scale + step ∨
    (handleGesture defaultCustomTrans step env e s).scale = s.scale - step := by
  rw [handleGesture_default_scale step env e s crect chrect hc hch hd hl]
  by_cases hp : e.deltaY > 0
  · right
    simp only [direc, if_pos hp]
    ring
  · left
    simp only [direc, if_neg hp]
    ring

/-- Witness for C7: a concrete zoom-out event changes scale 1 by ± 0.1. -/
theorem claim_C7_scale_one_step_witness :
    sampleEnv.container = some (BoundingRect.mk 0 0 200 100) ∧
    sampleEnv.child = some sampleRect ∧
    (WheelEv.mk 1 2 5).deltaY ≠ 0 ∧
    sampleState.mousedownLock = false ∧
    ((handleGesture defaultCustomTrans defaultScaleStep sampleEnv
        (WheelEv.mk 1 2 5) sampleState).scale =
          sampleState.scale + defaultScaleStep ∨
     (handleGesture defaultCustomTrans defaultScaleStep sampleEnv
        (WheelEv.mk 1 2 5) sampleState).scale =
          sampleState.scale - defaultScaleStep) :=
  ⟨rfl, rfl, by show (5 : ℚ) ≠ 0; norm_num, rfl,
   claim_C7_scale_one_step defaultScaleStep sampleEnv (WheelEv.mk 1 2 5)
     sampleState (BoundingRect.mk 0 0 200 100) sampleRect rfl rfl
     (by show (5 : ℚ) ≠ 0; norm_num) rfl⟩

/-- C8: with `scaleStep = 0.1`, default correction and initial scale 1, one
zoom-in wheel event commits scale `1.1 = 11/10`, and a following zoom-out
event returns the scale to exactly 1. -/
theorem claim_C8_scale_round_trip (env : DomEnv) (e1 e2 : WheelEv)
    (s : HookState) (crect chrect : BoundingRect)
    (hc : env.container = some crect) (hch : env.child = some chrect)
    (hl : s.mousedownLock = false) (hs : s.scale = 1)
    (h1 : e1.deltaY < 0) (h2 : 0 < e2.deltaY) :
    (handleGesture defaultCustomTrans defaultScaleStep env e1 s).scale = 11 / 10 ∧
    (handleGesture defaultCustomTrans defaultScaleStep env e2
      (handleGesture defaultCustomTrans defaultScaleStep env e1 s)).scale = 1 := by
  have hd1 : e1.deltaY ≠ 0 := ne_of_lt h1
  have hd2 : e2.deltaY ≠ 0 := ne_of_gt h2
  have hl1 : (handleGesture defaultCustomTrans defaultScaleStep env e1 s).mousedownLock = false := by
    rw [handleGesture_mousedownLock]
    exact hl
  have hsc1 : (handleGesture defaultCustomTrans defaultScaleStep env e1 s).scale = 11 / 10 := by
    rw [handleGesture_default_scale defaultScaleStep env e1 s crect chrect hc hch hd1 hl, hs]
    simp only [direc, if_neg (not_lt_of_gt h1)]
    norm_num [defaultScaleStep]
  refine ⟨hsc1, ?_⟩
  rw [handleGesture_default_scale defaultScaleStep env e2 _ crect chrect hc hch hd2 hl1, hsc1]
  simp only [direc, if_pos h2]
  norm_num [defaultScaleStep]

/-- Witness for C8: concrete zoom-in then zoom-out events round-trip the
scale from 1 through 1.1 back to 1. -/
theorem claim_C8_scale_round_trip_witness :
    sampleEnv.container = some (BoundingRect.mk 0 0 200 100) ∧
    sampleEnv.child = some sampleRect ∧
    sampleState.mousedownLock = false ∧
    sampleState.scale = 1 ∧
    (WheelEv.mk 1 2 (-3)).deltaY < 0 ∧
    (0 : ℚ) < (WheelEv.mk 4 5 7).deltaY ∧
    (handleGesture defaultCustomTrans defaultScaleStep sampleEnv
        (WheelEv.mk 1 2 (-3)) sampleState).scale = 11 / 10 ∧
    (handleGesture defaultCustomTrans defaultScaleStep sampleEnv
        (WheelEv.mk 4 5 7)
        (handleGesture defaultCustomTrans defaultScaleStep sampleEnv
          (WheelEv.mk 1 2 (-3)) sampleState)).scale = 1 :=
  ⟨rfl, rfl, rfl, rfl,
   by show (-3 : ℚ) < 0; norm_num,
   by show (0 : ℚ) < 7; norm_num,
   (claim_C8_scale_round_trip sampleEnv (WheelEv.mk 1 2 (-3)) (WheelEv.mk 4 5 7)
      sampleState (BoundingRect.mk 0 0 200 100) sampleRect rfl rfl rfl rfl
      (by show (-3 : ℚ) < 0; norm_num) (by show (0 : ℚ) < 7; norm_num)).1,
   (claim_C8_scale_round_trip sampleEnv (WheelEv.mk 1 2 (-3)) (WheelEv.mk 4 5 7)
      sampleState (BoundingRect.mk 0 0 200 100) sampleRect rfl rfl rfl rfl
      (by show (-3 : ℚ) < 0; norm_num) (by show (0 : ℚ) < 7; norm_num)).2⟩

/-- C3: during a single active drag session with the default (identity)
correction function, processing any finite sequence of pointer-move events
yields final translation = initial translation + component-wise sum of the
per-event pointer deltas (each delta taken against the previously recorded
pointer position). -/
theorem claim_C3_drag_translation_sum (env : DomEnv) (es : List MouseEv)
    (s : HookState) (h : s.mousedownLock = true) :
    (processMoves defaultCustomTrans env es s).transXY =
      (s.transXY.1 + (sumPairs (moveDeltas s.mouseXY es)).1,
       s.transXY.2 + (sumPairs (moveDeltas s.mouseXY es)).2) := by
  induction es generalizing s with
  | nil =>
    simp [processMoves, moveDeltas, sumPairs]
  | cons e es ih =>
    have hlock : (handleMove defaultCustomTrans env e s).mousedownLock = true := by
      rw [handleMove_mousedownLock]
      exact h
    have hih := ih (handleMove defaultCustomTrans env e s) hlock
    simp only [processMoves, List.foldl_cons] at hih ⊢
    rw [hih, handleMove_default_transXY env e s h,
        handleMove_mouseXY_active defaultCustomTrans env e s h]
    simp only [moveDeltas, sumPairs]
    apply Prod.ext <;> simp <;> ring

/-- Witness for C3: a concrete two-event drag accumulates both deltas. -/
theorem claim_C3_drag_translation_sum_witness :
    ({ sampleState with mousedownLock := true } : HookState).mousedownLock = true ∧
    (processMoves defaultCustomTrans sampleEnv [MouseEv.mk 3 4, MouseEv.mk 10 1]
        { sampleState with mousedownLock := true }).transXY =
      (({ sampleState with mousedownLock := true } : HookState).transXY.1 +
         (sumPairs (moveDeltas ({ sampleState with mousedownLock := true } : HookState).mouseXY
            [MouseEv.mk 3 4, MouseEv.mk 10 1])).1,
       ({ sampleState with mousedownLock := true } : HookState).transXY.2 +
         (sumPairs (moveDeltas ({ sampleState with mousedownLock := true } : HookState).mouseXY
            [MouseEv.mk 3 4, MouseEv.mk 10 1])).2) :=
  ⟨rfl,
   claim_C3_drag_translation_sum sampleEnv [MouseEv.mk 3 4, MouseEv.mk 10 1]
     { sampleState with mousedownLock := true } rfl⟩

/-- Counterexample for C4: for a pointer-move update, the committed state is
NOT always the full state returned by the correction function — a correction
function whose MOVE result carries scale 99 still leaves the committed scale
at 1, so committed state and returned state differ. -/
theorem claim_C4_counterexample :
    transformConfig (handleMove (fun _prev v _rect _a => { v with scale := 99 })
        sampleEnv (MouseEv.mk 3 4) { sampleState with mousedownLock := true }) ≠
      (fun (_prev v : ITransRes) (_rect : IRectData) (_a : IAction) =>
          { v with scale := 99 })
        (transformConfig { sampleState with mousedownLock := true })
        (moveProposal (MouseEv.mk 3 4)
          ({ sampleState with mousedownLock := true } : HookState).mouseXY
          (transformConfig { sampleState with mousedownLock := true }))
        (getOriginRect sampleEnv
          { sampleState with mousedownLock := true, mouseXY := (3, 4) }).1
        IAction.MOVE := by
  intro hcontra
  have hscale := congrArg ITransRes.scale hcontra
  simp [handleMove, getOriginRect, transformConfig, moveProposal, sampleState] at hscale

/-- C4 (amended): every transform update passes
`(previous, proposed, rect snapshot, action)` through the correction function
and commits from its result: a wheel update commits in full the translation,
scale and rotation of the result; a pointer-move update commits exactly the
translation of the result (scale and rotation keep their previous values); and
with a correction function clamping scale to `[1/2, 2]`, a wheel event whose
proposed scale is `2.3` commits scale `2`. -/
theorem claim_C4_correction_pipeline :
    (∀ (ct : CustomTrans) (step : ℚ) (env : DomEnv) (e : WheelEv) (s : HookState)
       (crect chrect : BoundingRect),
       env.container = some crect → env.child = some chrect →
       e.deltaY ≠ 0 → s.mousedownLock = false →
       transformConfig (handleGesture ct step env e s) =
         ct (transformConfig s) (gestureProposal step chrect e (transformConfig s))
           (getOriginRect env s).1 IAction.SCALE) ∧
    (∀ (ct : CustomTrans) (env : DomEnv) (e : MouseEv) (s : HookState),
       s.mousedownLock = true →
       (handleMove ct env e s).transXY =
         (ct (transformConfig s) (moveProposal e s.mouseXY (transformConfig s))
           (getOriginRect env { s with mouseXY := (e.clientX, e.clientY) }).1
           IAction.MOVE).transXY) ∧
    (handleGesture
        (fun _prev v _rect _a => { v with scale := min 2 (max (1 / 2) v.scale) })
        defaultScaleStep sampleEnv (WheelEv.mk 1 2 (-1))
        { sampleState with scale := 11 / 5 }).scale = 2 := by
  refine ⟨?_, ?_, ?_⟩
  · intro ct step env e s crect chrect hc hch hd hl
    simp only [handleGesture, hc, hch, hl, if_neg hd, Bool.false_eq_true, if_false]
    rfl
  · intro ct env e s h
    simp only [handleMove, h, Bool.true_eq_false, if_false]
  · have hd : (WheelEv.mk 1 2 (-1)).deltaY ≠ 0 := by
      show (-1 : ℚ) ≠ 0
      norm_num
    simp only [handleGesture, sampleEnv, sampleState, if_neg hd]
    norm_num [gestureProposal, transformConfig, direc, defaultScaleStep,
      sampleState, min_def, max_def]

/-- Witness for C4 (amended): both universally quantified parts applied at a
concrete wheel and a concrete move event. -/
theorem claim_C4_correction_pipeline_witness :
    (transformConfig (handleGesture defaultCustomTrans defaultScaleStep sampleEnv
        (WheelEv.mk 1 2 (-3)) sampleState) =
      defaultCustomTrans (transformConfig sampleState)
        (gestureProposal defaultScaleStep sampleRect (WheelEv.mk 1 2 (-3))
          (transformConfig sampleState))
        (getOriginRect sampleEnv sampleState).1 IAction.SCALE) ∧
    ((handleMove defaultCustomTrans sampleEnv (MouseEv.mk 3 4)
        { sampleState with mousedownLock := true }).transXY =
      (defaultCustomTrans (transformConfig { sampleState with mousedownLock := true })
        (moveProposal (MouseEv.mk 3 4)
          ({ sampleState with mousedownLock := true } : HookState).mouseXY
          (transformConfig { sampleState with mousedownLock := true }))
        (getOriginRect sampleEnv
          { sampleState with mousedownLock := true, mouseXY := ((MouseEv.mk 3 4).clientX, (MouseEv.mk 3 4).clientY) }).1
        IAction.MOVE).transXY) :=
  ⟨claim_C4_correction_pipeline.1 defaultCustomTrans defaultScaleStep sampleEnv
     (WheelEv.mk 1 2 (-3)) sampleState (BoundingRect.mk 0 0 200 100) sampleRect
     rfl rfl (by show (-3 : ℚ) ≠ 0; norm_num) rfl,
   claim_C4_correction_pipeline.2.1 defaultCustomTrans sampleEnv (MouseEv.mk 3 4)
     { sampleState with mousedownLock := true } rfl⟩

/-- C6: the derived transform string renders translate-x in pixels,
translate-y in pixels, rotation in degrees and unitless scale, in that fixed
order, for every state; in particular the state with translation `[10, 20]`,
rotation `30` and scale `1.5` renders as
`translateX(10px) translateY(20px) rotate(30deg) scale(1.5)`. -/
theorem claim_C6_transform_string :
    (∀ cfg : ITransRes,
       transform cfg =
         "translateX(" ++ jsNumToString cfg.transXY.1 ++ "px) translateY(" ++
           jsNumToString cfg.transXY.2 ++ "px) rotate(" ++
           jsNumToString cfg.rotate ++ "deg) scale(" ++
           jsNumToString cfg.scale ++ ")") ∧
    transform { transXY := (10, 20), scale := 3 / 2, rotate := 30 } =
      "translateX(10px) translateY(20px) rotate(30deg) scale(1.5)" := by
  constructor
  · intro cfg
    rfl
  · have h1 : (10 : ℚ) = mkRat 10 1 := by norm_num [Rat.mkRat_eq_div]
    have h2 : (20 : ℚ) = mkRat 20 1 := by norm_num [Rat.mkRat_eq_div]
    have h3 : (30 : ℚ) = mkRat 30 1 := by norm_num [Rat.mkRat_eq_div]
    have h4 : (3 / 2 : ℚ) = mkRat 3 2 := by norm_num [Rat.mkRat_eq_div]
    rw [h1, h2, h3, h4]
    decide
